import Mathlib

/-!
Verification development for the `website_field_analyzer` repository.

The four-stage classification pipeline (extraction/normalization, filtering,
form grouping with submission detection, and field/form/page purpose
classification) is embedded shallowly: pure Python functions become Lean
functions on explicit data, the browser/page collaborator becomes explicit
inputs (`Except`-valued query results), and machine-level hashing (MD5) is
embedded over `Nat` with explicit reduction modulo 2^32.
-/

namespace WFA

/- ## String utilities

Python's `str.lower()` and the substring operator `pat in s`, embedded over
character lists (ASCII-faithful, which is what the lowercase pattern tables
rely on). -/

def asciiLowerChar (c : Char) : Char :=
  if 65 ≤ c.toNat ∧ c.toNat ≤ 90 then Char.ofNat (c.toNat + 32) else c

/-- Embedding of Python `str.lower()`. -/
def lowerStr (s : String) : String := String.mk (s.data.map asciiLowerChar)

def prefixB : List Char → List Char → Bool
  | [], _ => true
  | _ :: _, [] => false
  | a :: as, b :: bs => a == b && prefixB as bs

def infixB : List Char → List Char → Bool
  | p, [] => prefixB p []
  | p, b :: bs => prefixB p (b :: bs) || infixB p bs

/-- Embedding of Python `pat in s` (substring containment). -/
def strContains (s pat : String) : Bool := infixB pat.data s.data

/- ## MD5 (`hashlib.md5`, used by `FormDetector._generate_form_id`)

Standard MD5 over byte lists, words as `Nat` reduced modulo 2^32. -/

def M32 : Nat := 4294967296

def rotl32 (x n : Nat) : Nat := ((x <<< n) % M32) ||| (x >>> (32 - n))

def notW (x : Nat) : Nat := x ^^^ 4294967295

def mdF (b c d : Nat) : Nat := (b &&& c) ||| (notW b &&& d)
def mdG (b c d : Nat) : Nat := (d &&& b) ||| (notW d &&& c)
def mdH (b c d : Nat) : Nat := b ^^^ c ^^^ d
def mdI (b c d : Nat) : Nat := c ^^^ (b ||| notW d)

def mdK : List Nat :=
  [0xd76aa478, 0xe8c7b756, 0x242070db, 0xc1bdceee,
   0xf57c0faf, 0x4787c62a, 0xa8304613, 0xfd469501,
   0x698098d8, 0x8b44f7af, 0xffff5bb1, 0x895cd7be,
   0x6b901122, 0xfd987193, 0xa679438e, 0x49b40821,
   0xf61e2562, 0xc040b340, 0x265e5a51, 0xe9b6c7aa,
   0xd62f105d, 0x02441453, 0xd8a1e681, 0xe7d3fbc8,
   0x21e1cde6, 0xc33707d6, 0xf4d50d87, 0x455a14ed,
   0xa9e3e905, 0xfcefa3f8, 0x676f02d9, 0x8d2a4c8a,
   0xfffa3942, 0x8771f681, 0x6d9d6122, 0xfde5380c,
   0xa4beea44, 0x4bdecfa9, 0xf6bb4b60, 0xbebfbc70,
   0x289b7ec6, 0xeaa127fa, 0xd4ef3085, 0x04881d05,
   0xd9d4d039, 0xe6db99e5, 0x1fa27cf8, 0xc4ac5665,
   0xf4292244, 0x432aff97, 0xab9423a7, 0xfc93a039,
   0x655b59c3, 0x8f0ccc92, 0xffeff47d, 0x85845dd1,
   0x6fa87e4f, 0xfe2ce6e0, 0xa3014314, 0x4e0811a1,
   0xf7537e82, 0xbd3af235, 0x2ad7d2bb, 0xeb86d391]

def mdS : List Nat :=
  [7, 12, 17, 22, 7, 12, 17, 22, 7, 12, 17, 22, 7, 12, 17, 22,
   5, 9, 14, 20, 5, 9, 14, 20, 5, 9, 14, 20, 5, 9, 14, 20,
   4, 11, 16, 23, 4, 11, 16, 23, 4, 11, 16, 23, 4, 11, 16, 23,
   6, 10, 15, 21, 6, 10, 15, 21, 6, 10, 15, 21, 6, 10, 15, 21]

structure MD5State where
  a : Nat
  b : Nat
  c : Nat
  d : Nat

def md5Round (m : List Nat) (st : MD5State) (i : Nat) : MD5State :=
  let fg : Nat × Nat :=
    if i < 16 then (mdF st.b st.c st.d, i)
    else if i < 32 then (mdG st.b st.c st.d, (5 * i + 1) % 16)
    else if i < 48 then (mdH st.b st.c st.d, (3 * i + 5) % 16)
    else (mdI st.b st.c st.d, (7 * i) % 16)
  let f := (fg.1 + st.a + mdK.getD i 0 + m.getD fg.2 0) % M32
  ⟨st.d, (st.b + rotl32 f (mdS.getD i 0)) % M32, st.b, st.c⟩

def md5Block (st : MD5State) (m : List Nat) : MD5State :=
  let r := (List.range 64).foldl (md5Round m) st
  ⟨(st.a + r.a) % M32, (st.b + r.b) % M32, (st.c + r.c) % M32, (st.d + r.d) % M32⟩

def lenBytes64 (v : Nat) : List Nat :=
  [v % 256, (v >>> 8) % 256, (v >>> 16) % 256, (v >>> 24) % 256,
   (v >>> 32) % 256, (v >>> 40) % 256, (v >>> 48) % 256, (v >>> 56) % 256]

def md5Pad (msg : List Nat) : List Nat :=
  msg ++ 0x80 :: (List.replicate ((120 - ((msg.length + 1) % 64)) % 64) 0
    ++ lenBytes64 (8 * msg.length))

def bytesToWords : List Nat → List Nat
  | b0 :: b1 :: b2 :: b3 :: rest =>
    (b0 + (b1 <<< 8) + (b2 <<< 16) + (b3 <<< 24)) :: bytesToWords rest
  | _ => []

def wordBlocks : List Nat → List (List Nat)
  | w0 :: w1 :: w2 :: w3 :: w4 :: w5 :: w6 :: w7 ::
    w8 :: w9 :: w10 :: w11 :: w12 :: w13 :: w14 :: w15 :: rest =>
    [w0, w1, w2, w3, w4, w5, w6, w7, w8, w9, w10, w11, w12, w13, w14, w15]
      :: wordBlocks rest
  | _ => []

def md5Init : MD5State := ⟨0x67452301, 0xefcdab89, 0x98badcfe, 0x10325476⟩

def wordLE (w : Nat) : List Nat :=
  [w % 256, (w >>> 8) % 256, (w >>> 16) % 256, (w >>> 24) % 256]

def md5Bytes (msg : List Nat) : List Nat :=
  let st := (wordBlocks (bytesToWords (md5Pad msg))).foldl md5Block md5Init
  wordLE st.a ++ wordLE st.b ++ wordLE st.c ++ wordLE st.d

def hexChar (n : Nat) : Char :=
  if n < 10 then Char.ofNat (48 + n) else Char.ofNat (87 + n)

def byteHex (n : Nat) : List Char := [hexChar ((n >>> 4) % 16), hexChar (n % 16)]

def utf8Char (c : Char) : List Nat :=
  let n := c.toNat
  if n < 0x80 then [n]
  else if n < 0x800 then
    [0xc0 ||| (n >>> 6), 0x80 ||| (n &&& 0x3f)]
  else if n < 0x10000 then
    [0xe0 ||| (n >>> 12), 0x80 ||| ((n >>> 6) &&& 0x3f), 0x80 ||| (n &&& 0x3f)]
  else
    [0xf0 ||| (n >>> 18), 0x80 ||| ((n >>> 12) &&& 0x3f),
     0x80 ||| ((n >>> 6) &&& 0x3f), 0x80 ||| (n &&& 0x3f)]

/-- Embedding of Python `selector.encode()` (UTF-8). -/
def utf8Bytes (s : String) : List Nat := (s.data.map utf8Char).flatten

/-- Embedding of `hashlib.md5(x.encode()).hexdigest()` as a character list. -/
def md5Hexdigest (s : String) : List Char := ((md5Bytes (utf8Bytes s)).map byteHex).flatten

/-- Embedding of `FormDetector._generate_form_id`: `f"form_{md5(selector).hexdigest()[:8]}"`. -/
def generateFormId (selector : String) : String :=
  "form_" ++ String.mk ((md5Hexdigest selector).take 8)

/- ## Data model (`models/field.py`, `models/form.py`) -/

structure SelectOption where
  label : String
  value : String
  selected : Bool
  deriving DecidableEq

/-- The `models/field.py` `Field` dataclass (the `xpath` attribute, never written by
the pipeline, keeps its `""` default). -/
structure Field where
  tag_name : String
  input_type : String
  name : Option String := none
  id : Option String := none
  placeholder : Option String := none
  aria_label : Option String := none
  label_text : Option String := none
  required : Bool := false
  disabled : Bool := false
  readonly : Bool := false
  visible : Bool := true
  selector : String := ""
  xpath : String := ""
  parent_container : String := ""
  classification : String := "unknown"
  value : Option String := none
  options : Option (List SelectOption) := none
  autocomplete : Option String := none
  validation_pattern : Option String := none
  min_length : Option Int := none
  max_length : Option Int := none
  deriving DecidableEq

/-- Submit descriptor recorded by `FormDetector._identify_submit_mechanisms`. -/
structure SubmitInfo where
  tag : String
  type : String
  text : String
  id : String
  className : String
  deriving DecidableEq

/-- The `models/form.py` `Form` dataclass. -/
structure Form where
  form_id : String
  fields : List Field := []
  submit_element : Option SubmitInfo := none
  form_purpose : String := "unknown"
  container_selector : String := ""
  form_tag_selector : Option String := none
  has_required_fields : Bool := false
  notes : List String := []
  deriving DecidableEq

/-- Per-container record returned by `FormDetector._get_form_groups`. -/
structure FormInfo where
  action : String
  method : String
  hasSubmit : Bool
  deriving DecidableEq

/- ## Settings (`config/settings.py`)

The Python pattern tables are sets used only through membership-style `any`
loops, so iteration order is irrelevant; they are embedded as lists. -/

def KEEP_HIDDEN_PATTERNS : List String :=
  ["csrf", "token", "session", "authenticity",
   "_token", "csrfmiddlewaretoken", "__requestverificationtoken"]

def REMOVE_TRACKING_PATTERNS : List String :=
  ["ga", "gtm", "analytics", "tracking", "pixel",
   "facebook", "fb", "twitter", "linkedin"]

def REQUIRED_FIELD_PATTERNS : List String :=
  ["email", "username", "user", "login", "password",
   "pass", "pwd", "signin", "sign-in"]

/- ## Field methods (`models/field.py`) -/

/-- Embedding of `Field.is_password`. -/
def Field.isPassword (f : Field) : Bool := f.input_type == "password"

/-- Embedding of `Field.is_submit`. -/
def Field.isSubmit (f : Field) : Bool := f.input_type == "submit" || f.tag_name == "button"

/-- Embedding of `Field.get_label`: first truthy of label_text, placeholder, aria_label,
name, id, `f"{tag_name}[{input_type}]"` (Python `or` treats `None` and `""` as
falsy). -/
def orStr (a : Option String) (b : String) : String :=
  match a with
  | some s => if s == "" then b else s
  | none => b

def Field.getLabel (f : Field) : String :=
  orStr f.label_text (orStr f.placeholder (orStr f.aria_label
    (orStr f.name (orStr f.id (f.tag_name ++ "[" ++ f.input_type ++ "]")))))

/- ## Form methods (`models/form.py`) -/

/-- Embedding of `Form.get_visible_fields`. -/
def Form.getVisibleFields (fo : Form) : List Field := fo.fields.filter (·.visible)

/-- Embedding of `Form.has_password_field`. -/
def Form.hasPasswordField (fo : Form) : Bool := fo.fields.any (·.isPassword)

/-- Embedding of `Form.has_email_field`: over ALL fields of the form (visible or not),
email input kind or `"email"` substring of lowercased name or id. -/
def Form.hasEmailField (fo : Form) : Bool :=
  fo.fields.any (fun f =>
    f.input_type == "email" ||
    strContains (lowerStr (f.name.getD "")) "email" ||
    strContains (lowerStr (f.id.getD "")) "email")

/- ## Extraction/normalization (`analyzer/dom_analyzer.py`, Step 6)

The external per-element reads are modelled as an `Except`-valued descriptor:
`Except.error` is a raised per-element read, `info = none` is the empty dict
that `DOMUtils.get_element_info` returns on its internal failure (falsy, so
the element is skipped by `if not info: continue`). -/

structure ElemInfo where
  tagName : String
  type : String
  name : String
  id : String
  placeholder : String
  ariaLabel : String
  required : Bool
  disabled : Bool
  readonly : Bool
  value : String
  options : Option (List SelectOption)
  autocomplete : String
  validationPattern : String
  minLength : Option Int
  maxLength : Option Int
  deriving DecidableEq

structure RawElement where
  info : Option ElemInfo
  visible : Bool
  selector : String
  label : Option String
  container : String
  deriving DecidableEq

/-- Python `x or None`: `""` becomes `None`. -/
def strOpt (s : String) : Option String := if s == "" then none else some s

/-- Python `info.get('options') or None`: an empty list is falsy. -/
def optionsOpt (o : Option (List SelectOption)) : Option (List SelectOption) :=
  match o with
  | some [] => none
  | x => x

/-- The `Field(...)` construction inside `DOMAnalyzer._normalize_elements`. -/
def mkField (r : RawElement) (i : ElemInfo) : Field :=
  { tag_name := i.tagName
    input_type := i.type
    name := strOpt i.name
    id := strOpt i.id
    placeholder := strOpt i.placeholder
    aria_label := strOpt i.ariaLabel
    label_text := r.label
    required := i.required
    disabled := i.disabled
    readonly := i.readonly
    visible := r.visible
    selector := r.selector
    parent_container := r.container
    value := strOpt i.value
    options := optionsOpt i.options
    autocomplete := strOpt i.autocomplete
    validation_pattern := strOpt i.validationPattern
    min_length := i.minLength
    max_length := i.maxLength }

/-- Embedding of `DOMAnalyzer._normalize_elements`: a raised read (`Except.error`) or an
empty info dict drops that element and the loop continues. -/
def normalizeElements : List (Except Unit RawElement) → List Field
  | [] => []
  | Except.error _ :: rest => normalizeElements rest
  | Except.ok r :: rest =>
    match r.info with
    | none => normalizeElements rest
    | some i => mkField r i :: normalizeElements rest

/-- The per-element outcome of `DOMAnalyzer._normalize_elements`. -/
def normStep (e : Except Unit RawElement) : Option Field :=
  match e with
  | Except.error _ => none
  | Except.ok r =>
    match r.info with
    | none => none
    | some i => some (mkField r i)

/- ## Filtering (`analyzer/dom_analyzer.py`, Step 7) -/

/-- Embedding of `DOMAnalyzer._is_tracking_field`. -/
def isTrackingField (f : Field) : Bool :=
  REMOVE_TRACKING_PATTERNS.any (fun p =>
    strContains (lowerStr (f.name.getD "")) p || strContains (lowerStr (f.id.getD "")) p)

/-- Embedding of `DOMAnalyzer._is_important_hidden_field`. -/
def isImportantHiddenField (f : Field) : Bool :=
  KEEP_HIDDEN_PATTERNS.any (fun p =>
    strContains (lowerStr (f.name.getD "")) p || strContains (lowerStr (f.id.getD "")) p)

/-- Embedding of `DOMAnalyzer._filter_elements`: drop disabled, drop tracking, keep hidden
only when it is an important token, keep everything else. -/
def filterElements : List Field → List Field
  | [] => []
  | f :: rest =>
    if f.disabled then filterElements rest
    else if isTrackingField f then filterElements rest
    else if f.input_type == "hidden" then
      if isImportantHiddenField f then f :: filterElements rest
      else filterElements rest
    else f :: filterElements rest

/- ## Form grouping (`analyzer/form_detector.py`, Step 8)

The page-level container map (the result of `_get_form_groups`'s JS query) is
an insertion-ordered dict, embedded as an association list. Python tracks
object identity (`id(field)`) only to split tier-1-assigned fields from the
rest; since a field is tier-1-assigned exactly when its attributes match some
container entry, the split is embedded as a filter on the same predicate. -/

/-- The tier-1 match in `_group_into_forms`:
`field.parent_container == form_selector or form_selector in field.selector`. -/
def matchesGroup (f : Field) (sel : String) : Bool :=
  f.parent_container == sel || strContains f.selector sel

/-- The `Form` a single tier-1 container entry emits (skipped when it claims
no field). -/
def tier1Form (inputFields : List Field) (sel : String) : Option Form :=
  if (inputFields.filter (fun f => matchesGroup f sel)).isEmpty then none
  else some { form_id := generateFormId sel
              fields := inputFields.filter (fun f => matchesGroup f sel)
              container_selector := sel
              form_tag_selector := some sel }

/-- Tier 1 of `_group_into_forms`: one `Form` per discovered container that
claims at least one input field. -/
def tier1Forms (groups : List (String × FormInfo)) (inputFields : List Field) : List Form :=
  groups.filterMap (fun g => tier1Form inputFields g.1)

/-- The fields left unclaimed by every tier-1 container. -/
def unassignedFields (groups : List (String × FormInfo)) (inputFields : List Field) : List Field :=
  inputFields.filter (fun f => groups.all (fun g => !matchesGroup f g.1))

/-- First-insertion-ordered distinct keys of a Python dict built by
`d.setdefault`-style bucketing. -/
def collectKeys (key : α → String) (l : List α) : List String :=
  l.foldl (fun acc x => if acc.contains (key x) then acc else acc ++ [key x]) []

/-- The `Form` a single container bucket emits. -/
def tier2Form (ua : List Field) (c : String) : Option Form :=
  if (ua.filter (fun f => f.parent_container == c)).isEmpty then none
  else some { form_id := generateFormId c
              fields := ua.filter (fun f => f.parent_container == c)
              container_selector := c }

/-- Tier 2 of `_group_into_forms`: bucket the unclaimed fields by their
captured `parent_container` value, one `Form` per bucket. -/
def tier2Forms (ua : List Field) : List Form :=
  (collectKeys (·.parent_container) ua).filterMap (tier2Form ua)

/-- Embedding of `FormDetector._group_into_forms` (Step 8): split off submit elements,
assign fields to discovered containers (tier 1), bucket the rest by container
(tier 2), and fall back to a single default form when no form resulted. -/
def groupIntoForms (groups : List (String × FormInfo)) (fields : List Field) : List Form :=
  let inputFields := fields.filter (fun f => !f.isSubmit)
  let forms := tier1Forms groups inputFields ++ tier2Forms (unassignedFields groups inputFields)
  if forms.isEmpty && !inputFields.isEmpty then
    [{ form_id := "default_form", fields := inputFields, container_selector := "body" }]
  else forms

/- ## Submission detection (`analyzer/form_detector.py`, Step 9)

The in-page submit query is an external collaborator: `Except.error` is a
raised `page.evaluate`, `Except.ok none` is a query that found no container or
no submit element. -/

/-- Per-form body of `FormDetector._identify_submit_mechanisms`. -/
def submitStep (query : String → Except Unit (Option SubmitInfo)) (fo : Form) : Form :=
  match query fo.container_selector with
  | Except.ok (some info) => { fo with submit_element := some info }
  | Except.ok none => { fo with notes := fo.notes ++ ["No explicit submit button found"] }
  | Except.error _ => { fo with notes := fo.notes ++ ["Submit detection failed"] }

/-- Embedding of `FormDetector._identify_submit_mechanisms` over the whole form list. -/
def identifySubmitMechanisms (query : String → Except Unit (Option SubmitInfo))
    (forms : List Form) : List Form :=
  forms.map (submitStep query)

/-- Embedding of `FormDetector._get_form_groups`: a raised container-map query degrades to
an empty map. -/
def getFormGroups (result : Except Unit (List (String × FormInfo))) :
    List (String × FormInfo) :=
  match result with
  | Except.ok m => m
  | Except.error _ => []

/- ## Field requirement classification (`analyzer/field_classifier.py`, Step 10) -/

/-- Embedding of `FieldClassifier._classify_field`: fixed-precedence requirement rules. -/
def classifyField (f : Field) : String :=
  if f.input_type == "hidden" || !f.visible then "hidden"
  else if f.required then "required"
  else if f.isPassword then "required"
  else
    let nameL := lowerStr (f.name.getD "")
    let idL := lowerStr (f.id.getD "")
    let labelL := lowerStr f.getLabel
    if REQUIRED_FIELD_PATTERNS.any (fun p =>
        strContains nameL p || strContains idL p || strContains labelL p) then "required"
    else if f.input_type == "email" then "required"
    else if f.input_type == "checkbox" || f.input_type == "radio" then "optional"
    else if f.tag_name == "select" then
      if ["filter", "sort", "category", "type"].any (fun w => strContains labelL w)
      then "optional"
      else "optional"
    else
      let ph := f.placeholder.getD ""
      if !(ph == "") then
        if strContains (lowerStr ph) "optional" then "optional"
        else if strContains (lowerStr ph) "required" || strContains ph "*" then "required"
        else "optional"
      else "optional"

/- ## Purpose classification (`analyzer/page_classifier.py`, Steps 11-12)

`_detect_form_purpose` indexes `visible_fields[0]` behind a count guard; the
embedding returns `Option String`, `none` standing for the `IndexError` that
an unguarded access would raise. -/

/-- Rules 4-7 of `PageClassifier._detect_form_purpose` (after the single-text
rule). -/
def latePurpose (vf : List Field) (n : Nat) : Option String :=
  if vf.any (fun f =>
      strContains (lowerStr (f.name.getD "")) "search" ||
      strContains (lowerStr (f.placeholder.getD "")) "search" ||
      f.input_type == "search") then some "search"
  else if 2 ≤ vf.countP (fun f => f.tag_name == "select") then some "listing"
  else if 5 < n then some "mixed"
  else some "unknown"

/-- Embedding of `PageClassifier._detect_form_purpose` (Step 11). -/
def detectFormPurpose (fo : Form) : Option String :=
  let vf := fo.getVisibleFields
  let n := vf.length
  let hasEmail := fo.hasEmailField
  let hasPassword := fo.hasPasswordField
  let passwordCount := vf.countP (·.isPassword)
  if hasPassword && passwordCount == 1 &&
      (hasEmail || vf.any (fun f =>
        strContains (lowerStr (f.name.getD "")) "username" ||
        strContains (lowerStr (f.name.getD "")) "user")) then some "login"
  else if hasEmail && 2 ≤ passwordCount then some "signup"
  else if n == 1 then
    match vf.get? 0 with
    | none => none
    | some f0 =>
      if f0.input_type == "text" || f0.input_type == "search" then some "search"
      else latePurpose vf n
  else latePurpose vf n

/-- Embedding of `PageClassifier._classify_forms` (purpose assignment over all forms); a
raised per-form classification would propagate, hence the `Option`. -/
def classifyForms (forms : List Form) : Option (List Form) :=
  forms.mapM (fun fo => (detectFormPurpose fo).map
    (fun p => { fo with form_purpose := p }))

/-- Embedding of `PageClassifier._classify_page` (Step 12): aggregate page type from the
form purposes (`set(purposes)` embedded as order-preserving dedup). -/
def classifyPage (forms : List Form) : String :=
  if forms.isEmpty then "unknown"
  else
    let purposes := forms.map (·.form_purpose)
    let uniq := collectKeys (fun p => p) purposes
    if uniq.length == 1 then purposes.headD "unknown"
    else if purposes.contains "login" && purposes.contains "search" then "mixed"
    else if purposes.contains "login" then "login"
    else if purposes.contains "signup" then "signup"
    else if purposes.contains "search" then "search"
    else if purposes.contains "listing" then "listing"
    else "mixed"

/- ## Helper lemmas -/

theorem prefixB_iff : ∀ (p s : List Char), prefixB p s = true ↔ p <+: s := by
  intro p
  induction p with
  | nil => intro s; simp [prefixB]
  | cons a as ih =>
    intro s
    cases s with
    | nil => simp [prefixB]
    | cons b bs =>
      simp only [prefixB, Bool.and_eq_true, beq_iff_eq, List.cons_prefix_cons, ih]

theorem infixB_iff (p : List Char) : ∀ (s : List Char), infixB p s = true ↔ p <:+: s := by
  intro s
  induction s with
  | nil => cases p <;> simp [infixB, prefixB]
  | cons b bs ih =>
    simp only [infixB, Bool.or_eq_true, prefixB_iff, ih, List.infix_cons_iff]

theorem strContains_iff (s pat : String) :
    strContains s pat = true ↔ pat.data <:+: s.data := by
  simp [strContains, infixB_iff]

/-- A substring of a substring is a substring. -/
theorem strContains_trans {s a b : String} (h1 : strContains s a = true)
    (h2 : strContains a b = true) : strContains s b = true := by
  rw [strContains_iff] at h1 h2 ⊢
  exact h2.trans h1

/-- The keep-decision of `DOMAnalyzer._filter_elements` as a single predicate. -/
def keepField (f : Field) : Bool :=
  !f.disabled && !isTrackingField f &&
    (!(f.input_type == "hidden") || isImportantHiddenField f)

theorem filterElements_eq_filter : ∀ l : List Field,
    filterElements l = l.filter keepField := by
  intro l
  induction l with
  | nil => rfl
  | cons f rest ih =>
    by_cases hd : f.disabled <;>
      by_cases ht : isTrackingField f <;>
        by_cases hh : f.input_type == "hidden" <;>
          by_cases hk : isImportantHiddenField f <;>
            simp [filterElements, List.filter_cons, keepField, hd, ht, hh, hk, ih]

theorem countP_filterMap (h : α → Option β) (p : β → Bool) :
    ∀ l : List α, (l.filterMap h).countP p
      = l.countP (fun a => ((h a).map p).getD false) := by
  intro l
  induction l with
  | nil => rfl
  | cons a rest ih =>
    cases hha : h a with
    | none => simp [List.filterMap_cons, hha, List.countP_cons, ih]
    | some b => simp [List.filterMap_cons, hha, List.countP_cons, ih]

theorem mem_collectKeys_foldl (key : α → String) :
    ∀ (l : List α) (acc : List String) (a : String),
      a ∈ l.foldl (fun acc x => if acc.contains (key x) then acc else acc ++ [key x]) acc
        ↔ a ∈ acc ∨ ∃ x ∈ l, key x = a := by
  intro l
  induction l with
  | nil => simp
  | cons x rest ih =>
    intro acc a
    simp only [List.foldl_cons]
    by_cases hx : acc.contains (key x)
    · rw [if_pos hx, ih]
      have hx' : key x ∈ acc := by simpa using hx
      constructor
      · rintro (ha | ⟨y, hy, hk⟩)
        · exact Or.inl ha
        · exact Or.inr ⟨y, List.mem_cons_of_mem _ hy, hk⟩
      · rintro (ha | ⟨y, hy, hk⟩)
        · exact Or.inl ha
        · rcases List.mem_cons.mp hy with h1 | h1
          · subst h1; subst hk; exact Or.inl hx'
          · exact Or.inr ⟨y, h1, hk⟩
    · rw [if_neg hx, ih]
      constructor
      · rintro (ha | ⟨y, hy, hk⟩)
        · rcases List.mem_append.mp ha with h1 | h1
          · exact Or.inl h1
          · simp only [List.mem_singleton] at h1
            exact Or.inr ⟨x, List.mem_cons_self _ _, h1.symm⟩
        · exact Or.inr ⟨y, List.mem_cons_of_mem _ hy, hk⟩
      · rintro (ha | ⟨y, hy, hk⟩)
        · exact Or.inl (List.mem_append.mpr (Or.inl ha))
        · rcases List.mem_cons.mp hy with h1 | h1
          · subst h1
            exact Or.inl (List.mem_append.mpr (Or.inr (by simp [hk])))
          · exact Or.inr ⟨y, h1, hk⟩

theorem mem_collectKeys (key : α → String) (l : List α) (a : String) :
    a ∈ collectKeys key l ↔ ∃ x ∈ l, key x = a := by
  rw [collectKeys, mem_collectKeys_foldl]
  simp

theorem nodup_collectKeys_foldl (key : α → String) :
    ∀ (l : List α) (acc : List String), acc.Nodup →
      (l.foldl (fun acc x => if acc.contains (key x) then acc else acc ++ [key x]) acc).Nodup := by
  intro l
  induction l with
  | nil => intro acc h; simpa using h
  | cons x rest ih =>
    intro acc h
    simp only [List.foldl_cons]
    by_cases hx : acc.contains (key x)
    · rw [if_pos hx]; exact ih acc h
    · rw [if_neg hx]
      refine ih _ ?_
      refine List.Nodup.append h (List.nodup_singleton _) ?_
      intro a ha hb
      simp only [List.mem_singleton] at hb
      subst hb
      exact hx (by simpa using ha)

theorem nodup_collectKeys (key : α → String) (l : List α) :
    (collectKeys key l).Nodup :=
  nodup_collectKeys_foldl key l [] List.nodup_nil

theorem tier1Form_eq_some {inp : List Field} {sel : String} {fo : Form} :
    tier1Form inp sel = some fo ↔
      inp.filter (fun f => matchesGroup f sel) ≠ [] ∧
      fo = { form_id := generateFormId sel
             fields := inp.filter (fun f => matchesGroup f sel)
             container_selector := sel
             form_tag_selector := some sel } := by
  rw [tier1Form]
  by_cases hE : (inp.filter (fun f => matchesGroup f sel)).isEmpty
  · rw [if_pos hE]
    simp [List.isEmpty_iff.mp hE]
  · rw [if_neg hE]
    have hne : inp.filter (fun f => matchesGroup f sel) ≠ [] := by
      simpa [List.isEmpty_iff] using hE
    simp [hne, eq_comm]

theorem tier2Form_eq_some {ua : List Field} {c : String} {fo : Form} :
    tier2Form ua c = some fo ↔
      ua.filter (fun f => f.parent_container == c) ≠ [] ∧
      fo = { form_id := generateFormId c
             fields := ua.filter (fun f => f.parent_container == c)
             container_selector := c } := by
  rw [tier2Form]
  by_cases hE : (ua.filter (fun f => f.parent_container == c)).isEmpty
  · rw [if_pos hE]
    simp [List.isEmpty_iff.mp hE]
  · rw [if_neg hE]
    have hne : ua.filter (fun f => f.parent_container == c) ≠ [] := by
      simpa [List.isEmpty_iff] using hE
    simp [hne, eq_comm]

theorem unassigned_sub {groups : List (String × FormInfo)} {inp : List Field} :
    ∀ f ∈ unassignedFields groups inp, f ∈ inp := by
  intro f hf
  exact (List.mem_filter.mp hf).1

theorem fields_sub_of_mem_tiers {groups : List (String × FormInfo)} {inp : List Field}
    {fo : Form}
    (h : fo ∈ tier1Forms groups inp ++ tier2Forms (unassignedFields groups inp)) :
    ∀ f ∈ fo.fields, f ∈ inp := by
  intro f hf
  rcases List.mem_append.mp h with h1 | h2
  · obtain ⟨e, _, he⟩ := List.mem_filterMap.mp h1
    obtain ⟨-, rfl⟩ := tier1Form_eq_some.mp he
    exact (List.mem_filter.mp hf).1
  · obtain ⟨c, _, hc⟩ := List.mem_filterMap.mp h2
    obtain ⟨-, rfl⟩ := tier2Form_eq_some.mp hc
    exact unassigned_sub _ (List.mem_filter.mp hf).1

/-- Every input field lands in some tier-1 or tier-2 form. -/
theorem exists_form_core (groups : List (String × FormInfo)) (inp : List Field)
    {f : Field} (hf : f ∈ inp) :
    ∃ fo ∈ tier1Forms groups inp ++ tier2Forms (unassignedFields groups inp),
      f ∈ fo.fields := by
  by_cases hm : ∃ e ∈ groups, matchesGroup f e.1 = true
  · obtain ⟨e, he, hme⟩ := hm
    have hff : f ∈ inp.filter (fun x => matchesGroup x e.1) :=
      List.mem_filter.mpr ⟨hf, hme⟩
    have hne : inp.filter (fun x => matchesGroup x e.1) ≠ [] :=
      List.ne_nil_of_mem hff
    refine ⟨{ form_id := generateFormId e.1
              fields := inp.filter (fun x => matchesGroup x e.1)
              container_selector := e.1
              form_tag_selector := some e.1 }, ?_, hff⟩
    exact List.mem_append.mpr (Or.inl (List.mem_filterMap.mpr
      ⟨e, he, tier1Form_eq_some.mpr ⟨hne, rfl⟩⟩))
  · have hua : f ∈ unassignedFields groups inp := by
      refine List.mem_filter.mpr ⟨hf, ?_⟩
      simp only [List.all_eq_true, Bool.not_eq_true']
      intro g hg
      by_contra hgm
      exact hm ⟨g, hg, by simpa using hgm⟩
    have hkey : f.parent_container ∈
        collectKeys (·.parent_container) (unassignedFields groups inp) :=
      (mem_collectKeys _ _ _).mpr ⟨f, hua, rfl⟩
    have hff : f ∈ (unassignedFields groups inp).filter
        (fun x => x.parent_container == f.parent_container) :=
      List.mem_filter.mpr ⟨hua, by simp⟩
    have hne : (unassignedFields groups inp).filter
        (fun x => x.parent_container == f.parent_container) ≠ [] :=
      List.ne_nil_of_mem hff
    refine ⟨{ form_id := generateFormId f.parent_container
              fields := (unassignedFields groups inp).filter
                (fun x => x.parent_container == f.parent_container)
              container_selector := f.parent_container }, ?_, hff⟩
    exact List.mem_append.mpr (Or.inr (List.mem_filterMap.mpr
      ⟨f.parent_container, hkey, tier2Form_eq_some.mpr ⟨hne, rfl⟩⟩))

/-- The tier-3 default-form branch of `_group_into_forms` is unreachable:
whenever any input field exists, tiers 1-2 already emitted a form. -/
theorem tiers_ne_nil_of_inp_ne_nil {groups : List (String × FormInfo)}
    {inp : List Field} (h : inp ≠ []) :
    tier1Forms groups inp ++ tier2Forms (unassignedFields groups inp) ≠ [] := by
  obtain ⟨f, hf⟩ := List.exists_mem_of_ne_nil inp h
  obtain ⟨fo, hfo, -⟩ := exists_form_core groups inp hf
  exact List.ne_nil_of_mem hfo

theorem mem_groupIntoForms {groups : List (String × FormInfo)} {l : List Field}
    {fo : Form} (h : fo ∈ groupIntoForms groups l) :
    fo ∈ tier1Forms groups (l.filter (fun x => !x.isSubmit)) ++
      tier2Forms (unassignedFields groups (l.filter (fun x => !x.isSubmit))) := by
  rw [groupIntoForms] at h
  by_cases hc : (tier1Forms groups (l.filter (fun x => !x.isSubmit)) ++
      tier2Forms (unassignedFields groups (l.filter (fun x => !x.isSubmit)))).isEmpty &&
      !(l.filter (fun x => !x.isSubmit)).isEmpty
  · rw [if_pos hc] at h
    rcases Bool.and_eq_true_iff.mp hc with ⟨h1, h2⟩
    exact absurd (List.isEmpty_iff.mp h1)
      (tiers_ne_nil_of_inp_ne_nil (by simpa [List.isEmpty_iff] using h2))
  · rwa [if_neg hc] at h

/-- Every field of every emitted form is a non-submit member of the grouping
input. -/
theorem groupIntoForms_fields_sub {groups : List (String × FormInfo)} {l : List Field}
    {fo : Form} (h : fo ∈ groupIntoForms groups l) :
    ∀ f ∈ fo.fields, f ∈ l.filter (fun x => !x.isSubmit) :=
  fields_sub_of_mem_tiers (mem_groupIntoForms h)

/-- Every emitted form carries the MD5-derived id of its own container
selector. -/
theorem groupIntoForms_form_id {groups : List (String × FormInfo)} {l : List Field}
    {fo : Form} (h : fo ∈ groupIntoForms groups l) :
    fo.form_id = generateFormId fo.container_selector := by
  rcases List.mem_append.mp (mem_groupIntoForms h) with h1 | h2
  · obtain ⟨e, -, he⟩ := List.mem_filterMap.mp h1
    obtain ⟨-, rfl⟩ := tier1Form_eq_some.mp he
    rfl
  · obtain ⟨c, -, hc⟩ := List.mem_filterMap.mp h2
    obtain ⟨-, rfl⟩ := tier2Form_eq_some.mp hc
    rfl

theorem length_md5Bytes (m : List Nat) : (md5Bytes m).length = 16 := by
  simp [md5Bytes, wordLE]

theorem length_md5Hexdigest (s : String) : (md5Hexdigest s).length = 32 := by
  rw [md5Hexdigest, List.length_flatten, List.map_map]
  have : (List.length ∘ byteHex) = fun _ : Nat => 2 := by
    funext n; rfl
  rw [this]
  rw [show (List.map (fun _ : Nat => 2) (md5Bytes (utf8Bytes s)))
      = List.replicate (md5Bytes (utf8Bytes s)).length 2 from List.map_const _ 2]
  rw [List.sum_replicate, length_md5Bytes]
  rfl

theorem length_generateFormId (s : String) : (generateFormId s).length = 13 := by
  rw [generateFormId, String.length_append]
  have hmk : (String.mk ((md5Hexdigest s).take 8)).length
      = ((md5Hexdigest s).take 8).length := rfl
  rw [hmk, List.length_take, length_md5Hexdigest]
  rfl

/- ## Claim C6 -/

/-- C6: every emitted Form's identifier is the fixed-length (8 hex characters
after the `form_` marker, 13 characters total) MD5 hash of its container
selector string, a pure function of the selector alone, so identical container
selectors — in the same run or across two runs over the same structure — yield
identical form ids. (The tier-3 fallback form, whose id would be the literal
`default_form`, is never emitted: tiers 1-2 always produce a form whenever any
input field exists, so the hash law covers every emitted form.) -/
theorem c6_form_id_is_selector_hash
    (g g' : List (String × FormInfo)) (l l' : List Field) (fo fo' : Form)
    (h : fo ∈ groupIntoForms g l) (h' : fo' ∈ groupIntoForms g' l') :
    fo.form_id = generateFormId fo.container_selector ∧
    fo.form_id.length = 13 ∧
    (fo.container_selector = fo'.container_selector → fo.form_id = fo'.form_id) := by
  refine ⟨groupIntoForms_form_id h, ?_, ?_⟩
  · rw [groupIntoForms_form_id h, length_generateFormId]
  · intro heq
    rw [groupIntoForms_form_id h, groupIntoForms_form_id h', heq]

def c6Groups : List (String × FormInfo) := [("form#login", ⟨"", "get", true⟩)]

def c6Field : Field :=
  { tag_name := "input", input_type := "text", parent_container := "form#login",
    selector := "#u" }

def c6Form : Form :=
  { form_id := generateFormId "form#login", fields := [c6Field],
    container_selector := "form#login", form_tag_selector := some "form#login" }

set_option maxRecDepth 100000 in
/-- Witness for C6 at a concrete one-form page. -/
theorem c6_form_id_is_selector_hash_witness :
    c6Form.form_id = generateFormId c6Form.container_selector ∧
    c6Form.form_id.length = 13 ∧
    (c6Form.container_selector = c6Form.container_selector →
      c6Form.form_id = c6Form.form_id) :=
  c6_form_id_is_selector_hash c6Groups c6Groups [c6Field] [c6Field] c6Form c6Form
    (by decide) (by decide)

/- ## Claim C9 -/

/-- C9: any field whose tag is `button` (regardless of its type attribute) or
whose input kind is `submit` is excluded from the grouping input, so it never
appears in any emitted Form's field list. -/
theorem c9_submit_fields_never_grouped
    (groups : List (String × FormInfo)) (fields : List Field) (fo : Form) (f : Field)
    (hfo : fo ∈ groupIntoForms groups fields) (hf : f ∈ fo.fields) :
    f.tag_name ≠ "button" ∧ f.input_type ≠ "submit" := by
  have hmem := groupIntoForms_fields_sub hfo f hf
  have hk := (List.mem_filter.mp hmem).2
  simp only [Field.isSubmit, Bool.not_eq_true', Bool.or_eq_false_iff,
    beq_eq_false_iff_ne, ne_eq] at hk
  exact ⟨hk.2, hk.1⟩

def c9Field : Field :=
  { tag_name := "input", input_type := "text", parent_container := "body",
    selector := "#q" }

def c9Button : Field :=
  { tag_name := "button", input_type := "submit", parent_container := "body",
    selector := "#go" }

def c9Form : Form :=
  { form_id := generateFormId "body", fields := [c9Field],
    container_selector := "body" }

set_option maxRecDepth 100000 in
/-- Witness for C9 at a concrete grouping run. -/
theorem c9_submit_fields_never_grouped_witness :
    c9Field.tag_name ≠ "button" ∧ c9Field.input_type ≠ "submit" :=
  c9_submit_fields_never_grouped [] [c9Field, c9Button] c9Form c9Field
    (by decide) (by decide)

/- ## Claim C1 -/

theorem groupIntoForms_eq_of_ne_nil {groups : List (String × FormInfo)} {l : List Field}
    (h : l.filter (fun x => !x.isSubmit) ≠ []) :
    groupIntoForms groups l =
      tier1Forms groups (l.filter (fun x => !x.isSubmit)) ++
        tier2Forms (unassignedFields groups (l.filter (fun x => !x.isSubmit))) := by
  rw [groupIntoForms]
  rw [if_neg]
  intro hc
  rcases Bool.and_eq_true_iff.mp hc with ⟨h1, -⟩
  exact tiers_ne_nil_of_inp_ne_nil h (List.isEmpty_iff.mp h1)

theorem countP_beq_eq_one_of_nodup_mem {l : List String} {a : String}
    (hd : l.Nodup) (ha : a ∈ l) : l.countP (fun c => c == a) = 1 := by
  induction l with
  | nil => cases ha
  | cons b rest ih =>
    rw [List.countP_cons]
    rcases List.nodup_cons.mp hd with ⟨hb, hrest⟩
    rcases List.mem_cons.mp ha with h1 | h1
    · subst h1
      have hz : rest.countP (fun c => c == a) = 0 := by
        rw [List.countP_eq_zero]
        intro c hc hca
        exact hb (by rwa [eq_of_beq hca] at hc)
      simp [hz]
    · have hba : (b == a) = false := by
        refine beq_eq_false_iff_ne.mpr ?_
        rintro rfl
        exact hb h1
      simp [ih hrest h1, hba]

/-- Tier-1 form count containing a given input field equals the number of
container entries the field matches. -/
theorem countP_tier1 {groups : List (String × FormInfo)} {inp : List Field} {f : Field}
    (hf : f ∈ inp) :
    (tier1Forms groups inp).countP (fun fo => decide (f ∈ fo.fields))
      = groups.countP (fun g => matchesGroup f g.1) := by
  rw [tier1Forms, countP_filterMap]
  refine List.countP_congr ?_
  intro g _
  cases hm : matchesGroup f g.1 with
  | true =>
    have hff : f ∈ inp.filter (fun x => matchesGroup x g.1) :=
      List.mem_filter.mpr ⟨hf, hm⟩
    have heq : tier1Form inp g.1 = some
        { form_id := generateFormId g.1
          fields := inp.filter (fun x => matchesGroup x g.1)
          container_selector := g.1
          form_tag_selector := some g.1 } :=
      tier1Form_eq_some.mpr ⟨List.ne_nil_of_mem hff, rfl⟩
    simp [heq, hff]
  | false =>
    by_cases hE : (inp.filter (fun x => matchesGroup x g.1)).isEmpty
    · rw [tier1Form, if_pos hE]
      simp
    · have hne : inp.filter (fun x => matchesGroup x g.1) ≠ [] := by
        simpa [List.isEmpty_iff] using hE
      have heq : tier1Form inp g.1 = some
          { form_id := generateFormId g.1
            fields := inp.filter (fun x => matchesGroup x g.1)
            container_selector := g.1
            form_tag_selector := some g.1 } :=
        tier1Form_eq_some.mpr ⟨hne, rfl⟩
      have hnf : f ∉ inp.filter (fun x => matchesGroup x g.1) := by
        intro hmem
        rw [(List.mem_filter.mp hmem).2] at hm
        cases hm
      simp [heq, hnf]

/-- A field not left unclaimed appears in no tier-2 form. -/
theorem countP_tier2_zero {ua : List Field} {f : Field} (hf : f ∉ ua) :
    (tier2Forms ua).countP (fun fo => decide (f ∈ fo.fields)) = 0 := by
  rw [List.countP_eq_zero]
  intro fo hfo
  obtain ⟨c, -, hc⟩ := List.mem_filterMap.mp hfo
  obtain ⟨-, rfl⟩ := tier2Form_eq_some.mp hc
  simp only [decide_eq_true_eq]
  intro hmem
  exact hf (List.mem_filter.mp hmem).1

/-- An unclaimed field appears in exactly one tier-2 form (its own container
bucket). -/
theorem countP_tier2_one {ua : List Field} {f : Field} (hf : f ∈ ua) :
    (tier2Forms ua).countP (fun fo => decide (f ∈ fo.fields)) = 1 := by
  rw [tier2Forms, countP_filterMap]
  have hcongr : (collectKeys (·.parent_container) ua).countP
      (fun c => ((tier2Form ua c).map (fun fo => decide (f ∈ fo.fields))).getD false)
      = (collectKeys (·.parent_container) ua).countP
        (fun c => c == f.parent_container) := by
    refine List.countP_congr ?_
    intro c hc
    obtain ⟨x, hx, hxc⟩ := (mem_collectKeys _ _ _).mp hc
    have hxb : x ∈ ua.filter (fun y => y.parent_container == c) :=
      List.mem_filter.mpr ⟨hx, by simp [hxc]⟩
    have heq : tier2Form ua c = some
        { form_id := generateFormId c
          fields := ua.filter (fun y => y.parent_container == c)
          container_selector := c } :=
      tier2Form_eq_some.mpr ⟨List.ne_nil_of_mem hxb, rfl⟩
    cases hcf : (c == f.parent_container) with
    | true =>
      have hceq : c = f.parent_container := eq_of_beq hcf
      have hfb : f ∈ ua.filter (fun y => y.parent_container == c) :=
        List.mem_filter.mpr ⟨hf, by simp [hceq]⟩
      simp [heq, hfb]
    | false =>
      have hnf : f ∉ ua.filter (fun y => y.parent_container == c) := by
        intro hmem
        have := (List.mem_filter.mp hmem).2
        rw [show f.parent_container = c from eq_of_beq this] at hcf
        simp at hcf
      simp [heq, hnf]
  rw [show (collectKeys (fun x => x.parent_container) ua).countP
        (fun c => ((tier2Form ua c).map (fun fo => decide (f ∈ fo.fields))).getD false)
      = (collectKeys (·.parent_container) ua).countP (fun c => c == f.parent_container)
    from hcongr]
  exact countP_beq_eq_one_of_nodup_mem (nodup_collectKeys _ _)
    ((mem_collectKeys _ _ _).mpr ⟨f, hf, rfl⟩)

def c1Dummy : Form := { form_id := "" }

def c1FieldDup : Field :=
  { tag_name := "input", input_type := "text", selector := "form#ab > input",
    parent_container := "zzz" }

def c1Submit : Field :=
  { tag_name := "button", input_type := "submit", selector := "#go",
    parent_container := "zzz" }

def c1Groups : List (String × FormInfo) :=
  [("form#a", ⟨"", "get", true⟩), ("form#ab", ⟨"", "get", true⟩)]

def c1Fields : List Field := [c1FieldDup, c1Submit]

def c1Out : List Form := groupIntoForms c1Groups (filterElements c1Fields)

set_option maxRecDepth 200000 in
/-- C1 counterexample: on a filtered field set containing a text input whose
selector contains two discovered container selectors and a submit button, the
text input is placed in two different forms and the submit button in none, so
the grouping is not a partition of the filtered set. -/
theorem c1_counterexample :
    c1FieldDup ∈ filterElements c1Fields ∧
    c1Submit ∈ filterElements c1Fields ∧
    c1Out.length = 2 ∧
    c1Out.getD 0 c1Dummy ≠ c1Out.getD 1 c1Dummy ∧
    c1FieldDup ∈ (c1Out.getD 0 c1Dummy).fields ∧
    c1FieldDup ∈ (c1Out.getD 1 c1Dummy).fields ∧
    c1Out.countP (fun fo => decide (c1Submit ∈ fo.fields)) = 0 := by
  decide

/-- C1 amended: after grouping, every non-submit field of the filtered set
belongs to at least one Form, submit-typed fields (submit input kind or
`button` tag) belong to none, and a non-submit field matched by at most one
discovered container entry belongs to exactly one Form — a field whose
attributes match several container entries is placed into each matching tier-1
Form. -/
theorem c1_grouping_near_partition (groups : List (String × FormInfo))
    (fields : List Field) (f : Field) (hf : f ∈ fields) :
    (f.isSubmit = false → ∃ fo ∈ groupIntoForms groups fields, f ∈ fo.fields) ∧
    (f.isSubmit = true → ∀ fo ∈ groupIntoForms groups fields, f ∉ fo.fields) ∧
    (f.isSubmit = false → groups.countP (fun g => matchesGroup f g.1) ≤ 1 →
      (groupIntoForms groups fields).countP (fun fo => decide (f ∈ fo.fields)) = 1) := by
  refine ⟨?_, ?_, ?_⟩
  · intro hs
    have hinp : f ∈ fields.filter (fun x => !x.isSubmit) :=
      List.mem_filter.mpr ⟨hf, by simp [hs]⟩
    obtain ⟨fo, hfo, hffo⟩ := exists_form_core groups _ hinp
    refine ⟨fo, ?_, hffo⟩
    rwa [groupIntoForms_eq_of_ne_nil (List.ne_nil_of_mem hinp)]
  · intro hs fo hfo hmem
    have := (List.mem_filter.mp (groupIntoForms_fields_sub hfo f hmem)).2
    rw [hs] at this
    cases this
  · intro hs hle
    have hinp : f ∈ fields.filter (fun x => !x.isSubmit) :=
      List.mem_filter.mpr ⟨hf, by simp [hs]⟩
    rw [groupIntoForms_eq_of_ne_nil (List.ne_nil_of_mem hinp), List.countP_append]
    by_cases hm : ∃ e ∈ groups, matchesGroup f e.1 = true
    · have h1 : groups.countP (fun g => matchesGroup f g.1) = 1 := by
        have hpos : 0 < groups.countP (fun g => matchesGroup f g.1) :=
          List.countP_pos_iff.mpr hm
        omega
      have hnua : f ∉ unassignedFields groups (fields.filter (fun x => !x.isSubmit)) := by
        intro hua
        have hall := (List.mem_filter.mp hua).2
        obtain ⟨e, he, hme⟩ := hm
        have := List.all_eq_true.mp hall e he
        rw [hme] at this
        cases this
      rw [countP_tier1 hinp, h1, countP_tier2_zero hnua]
    · have h0 : groups.countP (fun g => matchesGroup f g.1) = 0 := by
        rw [List.countP_eq_zero]
        intro e he hme
        exact hm ⟨e, he, hme⟩
      have hua : f ∈ unassignedFields groups (fields.filter (fun x => !x.isSubmit)) := by
        refine List.mem_filter.mpr ⟨hinp, ?_⟩
        simp only [List.all_eq_true, Bool.not_eq_true']
        intro g hg
        by_contra hgm
        exact hm ⟨g, hg, by simpa using hgm⟩
      rw [countP_tier1 hinp, h0, countP_tier2_one hua]

def c1Solo : Field :=
  { tag_name := "input", input_type := "text", selector := "#solo",
    parent_container := "body" }

set_option maxRecDepth 200000 in
/-- Witness for the amended C1 at a concrete input. -/
theorem c1_grouping_near_partition_witness :
    (c1Solo.isSubmit = false → ∃ fo ∈ groupIntoForms [] [c1Solo], c1Solo ∈ fo.fields) ∧
    (c1Solo.isSubmit = true → ∀ fo ∈ groupIntoForms [] [c1Solo], c1Solo ∉ fo.fields) ∧
    (c1Solo.isSubmit = false →
      List.countP (fun g => matchesGroup c1Solo g.1)
        ([] : List (String × FormInfo)) ≤ 1 →
      (groupIntoForms [] [c1Solo]).countP (fun fo => decide (c1Solo ∈ fo.fields)) = 1) :=
  c1_grouping_near_partition [] [c1Solo] c1Solo (by decide)

/- ## Claim C2 -/

/-- C2: the filter applies exactly four rules per field in order — drop when
disabled; drop when name or id case-insensitively substring-matches a tracking
pattern (even for hidden fields); keep a hidden-kind field only when name or
id matches a keep-hidden-token pattern; pass everything else. Consequently a
hidden field matching both a tracking and a keep-token pattern is dropped, and
the survivors are an order-preserved subsequence of the input. -/
theorem c2_filter_rules (l : List Field) :
    (filterElements l).Sublist l ∧
    (∀ f : Field, f ∈ filterElements l ↔
      f ∈ l ∧ f.disabled = false ∧ isTrackingField f = false ∧
        (f.input_type = "hidden" → isImportantHiddenField f = true)) ∧
    (∀ f ∈ l, f.input_type = "hidden" → isTrackingField f = true →
      f ∉ filterElements l) := by
  have he := filterElements_eq_filter l
  have hmem : ∀ f : Field, f ∈ filterElements l ↔
      f ∈ l ∧ f.disabled = false ∧ isTrackingField f = false ∧
        (f.input_type = "hidden" → isImportantHiddenField f = true) := by
    intro f
    rw [he, List.mem_filter]
    constructor
    · rintro ⟨hl, hk⟩
      simp only [keepField, Bool.and_eq_true, Bool.not_eq_true'] at hk
      obtain ⟨⟨hd, ht⟩, hor⟩ := hk
      refine ⟨hl, hd, ht, ?_⟩
      intro hh
      rcases Bool.or_eq_true_iff.mp hor with h1 | h1
      · rw [Bool.not_eq_true'] at h1
        exact absurd (beq_iff_eq.mpr hh) (by simp [h1])
      · exact h1
    · rintro ⟨hl, hd, ht, hh⟩
      refine ⟨hl, ?_⟩
      simp only [keepField, Bool.and_eq_true, Bool.not_eq_true']
      refine ⟨⟨hd, ht⟩, ?_⟩
      by_cases hhid : f.input_type = "hidden"
      · simp [hh hhid]
      · simp [hhid]
  refine ⟨by rw [he]; exact List.filter_sublist l, hmem, ?_⟩
  intro f _ hh ht hmemf
  have := ((hmem f).mp hmemf).2.2.1
  rw [ht] at this
  cases this

def c2Field : Field :=
  { tag_name := "input", input_type := "hidden", name := some "ga_csrf_token" }

/-- Witness for C2: a hidden field whose name matches both a tracking pattern
(`ga`) and keep-token patterns (`csrf`, `token`) is dropped. -/
theorem c2_filter_rules_witness :
    isTrackingField c2Field = true ∧ isImportantHiddenField c2Field = true ∧
    c2Field ∉ filterElements [c2Field] :=
  ⟨by decide, by decide,
    (c2_filter_rules [c2Field]).2.2 c2Field (by decide) (by decide) (by decide)⟩

/- ## Claim C3 -/

/-- Modelled from the claim's wording of the §4.5 rule table, with rule 4
matching the required-keyword patterns against name, id, and the RESOLVED
label (`label_text`) only. -/
def specClassifyField (f : Field) : String :=
  if f.input_type == "hidden" || !f.visible then "hidden"
  else if f.required then "required"
  else if f.isPassword then "required"
  else
    let nameL := lowerStr (f.name.getD "")
    let idL := lowerStr (f.id.getD "")
    let labelL := lowerStr (f.label_text.getD "")
    if REQUIRED_FIELD_PATTERNS.any (fun p =>
        strContains nameL p || strContains idL p || strContains labelL p) then "required"
    else if f.input_type == "email" then "required"
    else if f.input_type == "checkbox" || f.input_type == "radio" then "optional"
    else if f.tag_name == "select" then "optional"
    else
      let ph := f.placeholder.getD ""
      if !(ph == "") then
        if strContains (lowerStr ph) "optional" then "optional"
        else if strContains (lowerStr ph) "required" || strContains ph "*" then "required"
        else "optional"
      else "optional"

/-- The claim's rule table with rule 4 matching against the best-available
label (`Field.get_label`: resolved label, else placeholder, else aria-label,
else name, else id, else the `tag[kind]` fallback), which is what the code
consults. -/
def specClassifyFieldBestLabel (f : Field) : String :=
  if f.input_type == "hidden" || !f.visible then "hidden"
  else if f.required then "required"
  else if f.isPassword then "required"
  else
    let nameL := lowerStr (f.name.getD "")
    let idL := lowerStr (f.id.getD "")
    let labelL := lowerStr f.getLabel
    if REQUIRED_FIELD_PATTERNS.any (fun p =>
        strContains nameL p || strContains idL p || strContains labelL p) then "required"
    else if f.input_type == "email" then "required"
    else if f.input_type == "checkbox" || f.input_type == "radio" then "optional"
    else if f.tag_name == "select" then "optional"
    else
      let ph := f.placeholder.getD ""
      if !(ph == "") then
        if strContains (lowerStr ph) "optional" then "optional"
        else if strContains (lowerStr ph) "required" || strContains ph "*" then "required"
        else "optional"
      else "optional"

def c3Field : Field :=
  { tag_name := "input", input_type := "text", placeholder := some "username" }

/-- C3 counterexample: a visible text field with no name, id or resolved label
and placeholder `username` — rule 4 as claimed (name/id/resolved-label) never
fires and the placeholder-hint rule yields `optional`, but the code matches the
required-keyword `user` against the label fallback chain (which lands on the
placeholder) and returns `required`. -/
theorem c3_counterexample :
    classifyField c3Field ≠ specClassifyField c3Field ∧
    classifyField c3Field = "required" ∧
    specClassifyField c3Field = "optional" := by
  decide

set_option maxHeartbeats 2000000 in
/-- C3 amended: the classifier returns a value in
{required, optional, hidden} and implements the nine-rule first-match-wins
table, with rule 4 matching the required keywords against name, id, and the
best-available label (resolved label, else placeholder, else aria-label, else
name, else id, else the `tag[kind]` fallback). -/
theorem c3_classifier_table (f : Field) :
    classifyField f = specClassifyFieldBestLabel f ∧
    (classifyField f = "required" ∨ classifyField f = "optional" ∨
      classifyField f = "hidden") := by
  constructor
  · simp only [classifyField, specClassifyFieldBestLabel, ite_self]
  · rw [classifyField]
    dsimp only
    split_ifs <;> first
      | exact Or.inl rfl
      | exact Or.inr (Or.inl rfl)
      | exact Or.inr (Or.inr rfl)

/- ## Claim C4 -/

theorem headD_mem_str {ps : List String} (h : ps ≠ []) : ps.headD "unknown" ∈ ps := by
  cases ps with
  | nil => exact absurd rfl h
  | cons a l => exact List.mem_cons_self a l

/-- The Python test `len(set(purposes)) == 1` holds exactly when every purpose equals the
first one. -/
theorem collectKeys_id_length_one_iff {ps : List String} (h : ps ≠ []) :
    (collectKeys (fun p => p) ps).length = 1 ↔ ∀ p ∈ ps, p = ps.headD "unknown" := by
  constructor
  · intro h1
    obtain ⟨a, ha⟩ := List.length_eq_one.mp h1
    intro p hp
    have hpa : p = a := by
      have hm : p ∈ collectKeys (fun p => p) ps := (mem_collectKeys _ _ _).mpr ⟨p, hp, rfl⟩
      rw [ha] at hm
      simpa using hm
    have hha : ps.headD "unknown" = a := by
      have hm : ps.headD "unknown" ∈ collectKeys (fun p => p) ps :=
        (mem_collectKeys _ _ _).mpr ⟨_, headD_mem_str h, rfl⟩
      rw [ha] at hm
      simpa using hm
    rw [hpa, hha]
  · intro hall
    have hmem : ∀ a ∈ collectKeys (fun p => p) ps, a = ps.headD "unknown" := by
      intro a ha
      obtain ⟨x, hx, rfl⟩ := (mem_collectKeys _ _ _).mp ha
      exact hall x hx
    have hnonempty : ps.headD "unknown" ∈ collectKeys (fun p => p) ps :=
      (mem_collectKeys _ _ _).mpr ⟨_, headD_mem_str h, rfl⟩
    have hnd := nodup_collectKeys (fun p : String => p) ps
    rcases hu : collectKeys (fun p : String => p) ps with _ | ⟨a, rest⟩
    · rw [hu] at hnonempty
      cases hnonempty
    · rcases rest with _ | ⟨b, rest2⟩
      · simp [hu]
      · exfalso
        rw [hu] at hmem hnd
        have ha' := hmem a (by simp)
        have hb' := hmem b (by simp)
        rw [List.nodup_cons] at hnd
        exact hnd.1 (by simp [ha', hb'])

/-- Full characterization of when `_classify_page` yields `mixed` on a
non-empty form list. -/
theorem classifyPage_mixed_iff {forms : List Form} (hne : forms ≠ []) :
    classifyPage forms = "mixed" ↔
      (("login" ∈ forms.map (fun fo => fo.form_purpose) ∧
        "search" ∈ forms.map (fun fo => fo.form_purpose)) ∨
       (∀ p ∈ forms.map (fun fo => fo.form_purpose), p = "mixed") ∨
       (¬(∀ p ∈ forms.map (fun fo => fo.form_purpose),
            p = (forms.map (fun fo => fo.form_purpose)).headD "unknown") ∧
        "login" ∉ forms.map (fun fo => fo.form_purpose) ∧
        "signup" ∉ forms.map (fun fo => fo.form_purpose) ∧
        "search" ∉ forms.map (fun fo => fo.form_purpose) ∧
        "listing" ∉ forms.map (fun fo => fo.form_purpose))) := by
  have hpsne : forms.map (fun fo => fo.form_purpose) ≠ [] := by
    simpa using hne
  rw [classifyPage, if_neg (by simpa [List.isEmpty_iff] using hne)]
  by_cases h1 : (collectKeys (fun p => p) (forms.map fun fo => fo.form_purpose)).length = 1
  · rw [if_pos (by simpa using h1)]
    have hall := (collectKeys_id_length_one_iff hpsne).mp h1
    by_cases hmix : (forms.map fun fo => fo.form_purpose).headD "unknown" = "mixed"
    · constructor
      · intro _
        exact Or.inr (Or.inl (fun p hp => (hall p hp).trans hmix))
      · intro _
        exact hmix
    · constructor
      · intro hcontra
        exact absurd hcontra hmix
      · rintro (⟨hl, hs⟩ | hallmix | ⟨hnall, -⟩)
        · exact absurd ((hall _ hl).trans (hall _ hs).symm) (by decide)
        · exact absurd (hallmix _ (headD_mem_str hpsne)) hmix
        · exact absurd hall hnall
  · rw [if_neg (by simpa using h1)]
    have hnall : ¬ ∀ p ∈ forms.map (fun fo => fo.form_purpose),
        p = (forms.map (fun fo => fo.form_purpose)).headD "unknown" :=
      fun hall => h1 ((collectKeys_id_length_one_iff hpsne).mpr hall)
    by_cases h2 : "login" ∈ forms.map (fun fo => fo.form_purpose) ∧
        "search" ∈ forms.map (fun fo => fo.form_purpose)
    · rw [if_pos (by simp [h2.1, h2.2])]
      exact ⟨fun _ => Or.inl h2, fun _ => rfl⟩
    · rw [if_neg (by simpa using h2)]
      by_cases hl : "login" ∈ forms.map (fun fo => fo.form_purpose)
      · rw [if_pos (by simpa using hl)]
        constructor
        · intro h
          exact absurd h (by decide)
        · rintro (hc | hallmix | ⟨-, hnl, -⟩)
          · exact absurd hc h2
          · exact absurd (hallmix _ hl) (by decide)
          · exact absurd hl hnl
      · rw [if_neg (by simpa using hl)]
        by_cases hsg : "signup" ∈ forms.map (fun fo => fo.form_purpose)
        · rw [if_pos (by simpa using hsg)]
          constructor
          · intro h
            exact absurd h (by decide)
          · rintro (hc | hallmix | ⟨-, -, hnsg, -⟩)
            · exact absurd hc h2
            · exact absurd (hallmix _ hsg) (by decide)
            · exact absurd hsg hnsg
        · rw [if_neg (by simpa using hsg)]
          by_cases hse : "search" ∈ forms.map (fun fo => fo.form_purpose)
          · rw [if_pos (by simpa using hse)]
            constructor
            · intro h
              exact absurd h (by decide)
            · rintro (hc | hallmix | ⟨-, -, -, hnse, -⟩)
              · exact absurd hc h2
              · exact absurd (hallmix _ hse) (by decide)
              · exact absurd hse hnse
          · rw [if_neg (by simpa using hse)]
            by_cases hli : "listing" ∈ forms.map (fun fo => fo.form_purpose)
            · rw [if_pos (by simpa using hli)]
              constructor
              · intro h
                exact absurd h (by decide)
              · rintro (hc | hallmix | ⟨-, -, -, -, hnli⟩)
                · exact absurd hc h2
                · exact absurd (hallmix _ hli) (by decide)
                · exact absurd hli hnli
            · rw [if_neg (by simpa using hli)]
              exact ⟨fun _ => Or.inr (Or.inr ⟨hnall, hl, hsg, hse, hli⟩), fun _ => rfl⟩

def c4FormA : Form :=
  { form_id := "a", fields := List.replicate 6 { tag_name := "input", input_type := "text" },
    form_purpose := "mixed" }

def c4FormB : Form := { form_id := "b", fields := [], form_purpose := "unknown" }

/-- C4 counterexample: two classified forms with purposes `mixed` and
`unknown` (six plain text inputs / no fields) give page type `mixed` although
neither `login` nor `search` occurs among the form purposes, so `mixed` is not
equivalent to the presence of both `login` and `search`. -/
theorem c4_counterexample :
    detectFormPurpose c4FormA = some c4FormA.form_purpose ∧
    detectFormPurpose c4FormB = some c4FormB.form_purpose ∧
    classifyPage [c4FormA, c4FormB] = "mixed" ∧
    ¬ "login" ∈ [c4FormA, c4FormB].map (fun fo => fo.form_purpose) ∧
    ¬ "search" ∈ [c4FormA, c4FormB].map (fun fo => fo.form_purpose) := by
  decide

/-- C4 amended: over every non-empty list of classified forms, purposes
containing both `login` and `search` force page type `mixed`, but the converse
fails — `mixed` holds exactly when both `login` and `search` are present, or
every form's purpose is `mixed`, or the purposes are not all equal and none of
`login`/`signup`/`search`/`listing` occurs; `login` present together with
exactly one other purpose that is not `search` still yields page type
`login`. -/
theorem c4_page_type_mixed (forms : List Form) (hne : forms ≠ [])
    (_hcl : ∀ fo ∈ forms, detectFormPurpose fo = some fo.form_purpose) :
    (("login" ∈ forms.map (fun fo => fo.form_purpose) ∧
      "search" ∈ forms.map (fun fo => fo.form_purpose)) →
        classifyPage forms = "mixed") ∧
    (classifyPage forms = "mixed" ↔
      (("login" ∈ forms.map (fun fo => fo.form_purpose) ∧
        "search" ∈ forms.map (fun fo => fo.form_purpose)) ∨
       (∀ p ∈ forms.map (fun fo => fo.form_purpose), p = "mixed") ∨
       (¬(∀ p ∈ forms.map (fun fo => fo.form_purpose),
            p = (forms.map (fun fo => fo.form_purpose)).headD "unknown") ∧
        "login" ∉ forms.map (fun fo => fo.form_purpose) ∧
        "signup" ∉ forms.map (fun fo => fo.form_purpose) ∧
        "search" ∉ forms.map (fun fo => fo.form_purpose) ∧
        "listing" ∉ forms.map (fun fo => fo.form_purpose)))) ∧
    (("login" ∈ forms.map (fun fo => fo.form_purpose) ∧
      (∃ q, q ≠ "login" ∧ q ≠ "search" ∧ q ∈ forms.map (fun fo => fo.form_purpose) ∧
        ∀ p ∈ forms.map (fun fo => fo.form_purpose), p = "login" ∨ p = q)) →
      classifyPage forms = "login") := by
  have hiff := classifyPage_mixed_iff hne
  refine ⟨fun h2 => hiff.mpr (Or.inl h2), hiff, ?_⟩
  rintro ⟨hl, q, hq1, hq2, hq3, hq4⟩
  have hse : "search" ∉ forms.map (fun fo => fo.form_purpose) := by
    intro hs
    rcases hq4 _ hs with h | h
    · exact absurd h (by decide)
    · exact hq2 h.symm
  have hnall : ¬ ∀ p ∈ forms.map (fun fo => fo.form_purpose),
      p = (forms.map (fun fo => fo.form_purpose)).headD "unknown" := by
    intro hall
    exact hq1 ((hall _ hq3).trans (hall _ hl).symm)
  rw [classifyPage, if_neg (by simpa [List.isEmpty_iff] using hne)]
  rw [if_neg (by
    simpa using fun hall =>
      hnall ((collectKeys_id_length_one_iff (by simpa using hne)).mp hall))]
  have hnls : ¬("login" ∈ forms.map (fun fo => fo.form_purpose) ∧
      "search" ∈ forms.map (fun fo => fo.form_purpose)) := fun hc => hse hc.2
  rw [if_neg (by simpa using hnls)]
  rw [if_pos (by simpa using hl)]

def c4Login : Form :=
  { form_id := "l", form_purpose := "login", fields :=
      [{ tag_name := "input", input_type := "password", name := some "pw" },
       { tag_name := "input", input_type := "text", name := some "user_name" }] }

def c4Search : Form :=
  { form_id := "s", form_purpose := "search", fields :=
      [{ tag_name := "input", input_type := "search" }] }

set_option maxRecDepth 100000 in
/-- Witness for the amended C4: a classified login form plus a classified
search form give page type `mixed`. -/
theorem c4_page_type_mixed_witness :
    classifyPage [c4Login, c4Search] = "mixed" :=
  (c4_page_type_mixed [c4Login, c4Search] (by decide) (by decide)).1
    ⟨by decide, by decide⟩

/- ## Claim C5 -/

/-- Rules 4-7 of the purpose detector never yield `login`. -/
theorem latePurpose_ne_login (vf : List Field) (n : Nat) :
    latePurpose vf n ≠ some "login" := by
  rw [latePurpose]
  split_ifs <;> simp

/-- Modelled from the claim's wording: the login condition evaluated purely
over the form's VISIBLE fields — exactly one visible password field and
(a visible email field or a visible field whose name contains `user`). -/
def specLoginCondVisible (fo : Form) : Prop :=
  fo.getVisibleFields.countP (fun f => f.isPassword) = 1 ∧
  (fo.getVisibleFields.any (fun f =>
      f.input_type == "email" ||
      strContains (lowerStr (f.name.getD "")) "email" ||
      strContains (lowerStr (f.id.getD "")) "email") = true ∨
   fo.getVisibleFields.any
     (fun f => strContains (lowerStr (f.name.getD "")) "user") = true)

instance (fo : Form) : Decidable (specLoginCondVisible fo) := by
  unfold specLoginCondVisible
  infer_instance

def c5Form : Form :=
  { form_id := "c5", fields :=
      [{ tag_name := "input", input_type := "password", name := some "pass" },
       { tag_name := "input", input_type := "hidden", name := some "email_token",
         visible := false }] }

/-- C5 counterexample: a form with one visible password field and an invisible
hidden field named `email_token` is classified `login` by the code (the email
check ranges over ALL fields), although among its visible fields there is no
email field and no name containing `user`. -/
theorem c5_counterexample :
    detectFormPurpose c5Form = some "login" ∧ ¬ specLoginCondVisible c5Form := by
  decide

/-- C5 amended: the first heuristic fires, with precedence over the
signup/search/listing/mixed rules, exactly when the form's VISIBLE fields
contain exactly one password field and either the form has an email field
anywhere among ALL its fields (email input kind, or `email` substring of name
or id — `Form.has_email_field` is not restricted to visible fields) or some
visible field's name contains `user`. -/
theorem c5_login_rule (fo : Form) :
    detectFormPurpose fo = some "login" ↔
      (fo.getVisibleFields.countP (fun f => f.isPassword) = 1 ∧
        (fo.hasEmailField = true ∨
          ∃ f ∈ fo.getVisibleFields,
            strContains (lowerStr (f.name.getD "")) "user" = true)) := by
  rw [detectFormPurpose]
  by_cases hc : (fo.hasPasswordField &&
      (fo.getVisibleFields.countP (fun f => f.isPassword) == 1) &&
      (fo.hasEmailField || fo.getVisibleFields.any (fun f =>
        strContains (lowerStr (f.name.getD "")) "username" ||
        strContains (lowerStr (f.name.getD "")) "user"))) = true
  · rw [if_pos hc]
    rcases Bool.and_eq_true_iff.mp hc with ⟨hc1, hor⟩
    rcases Bool.and_eq_true_iff.mp hc1 with ⟨-, hcnt⟩
    have hcount : fo.getVisibleFields.countP (fun f => f.isPassword) = 1 := by
      simpa using hcnt
    refine ⟨fun _ => ⟨hcount, ?_⟩, fun _ => rfl⟩
    rcases Bool.or_eq_true_iff.mp hor with he | hany
    · exact Or.inl he
    · obtain ⟨f, hf, hfp⟩ := List.any_eq_true.mp hany
      rcases Bool.or_eq_true_iff.mp hfp with h1 | h1
      · exact Or.inr ⟨f, hf, strContains_trans h1 (by decide)⟩
      · exact Or.inr ⟨f, hf, h1⟩
  · rw [if_neg hc]
    have hnorhs : ¬(fo.getVisibleFields.countP (fun f => f.isPassword) = 1 ∧
        (fo.hasEmailField = true ∨
          ∃ f ∈ fo.getVisibleFields,
            strContains (lowerStr (f.name.getD "")) "user" = true)) := by
      rintro ⟨hcount, hor⟩
      apply hc
      have hp : fo.hasPasswordField = true := by
        have hpos : 0 < fo.getVisibleFields.countP (fun f => f.isPassword) := by omega
        obtain ⟨f, hf, hfp⟩ := List.countP_pos_iff.mp hpos
        exact List.any_eq_true.mpr ⟨f, (List.mem_filter.mp hf).1, hfp⟩
      have hor' : (fo.hasEmailField || fo.getVisibleFields.any (fun f =>
          strContains (lowerStr (f.name.getD "")) "username" ||
          strContains (lowerStr (f.name.getD "")) "user")) = true := by
        rcases hor with he | ⟨f, hf, hfu⟩
        · simp [he]
        · refine Bool.or_eq_true_iff.mpr (Or.inr (List.any_eq_true.mpr ⟨f, hf, ?_⟩))
          simp [hfu]
      simp [hp, hcount, hor']
    constructor
    · intro hres
      exfalso
      by_cases h2 : (fo.hasEmailField && decide
          (2 ≤ fo.getVisibleFields.countP (fun f => f.isPassword))) = true
      · rw [if_pos h2] at hres
        simp at hres
      · rw [if_neg h2] at hres
        by_cases hn : (fo.getVisibleFields.length == 1) = true
        · rw [if_pos hn] at hres
          cases hg : fo.getVisibleFields.get? 0 with
          | none =>
            rw [hg] at hres
            simp at hres
          | some f0 =>
            rw [hg] at hres
            dsimp only at hres
            by_cases h4 : (f0.input_type == "text" || f0.input_type == "search") = true
            · rw [if_pos h4] at hres
              simp at hres
            · rw [if_neg h4] at hres
              exact latePurpose_ne_login _ _ hres
        · rw [if_neg hn] at hres
          exact latePurpose_ne_login _ _ hres
    · intro hrhs
      exact absurd hrhs hnorhs

def c5Witness : Form :=
  { form_id := "w5", fields :=
      [{ tag_name := "input", input_type := "password", name := some "pw" },
       { tag_name := "input", input_type := "text", name := some "user_email" }] }

set_option maxRecDepth 100000 in
/-- Witness for the amended C5 at a concrete login form. -/
theorem c5_login_rule_witness :
    detectFormPurpose c5Witness = some "login" :=
  (c5_login_rule c5Witness).mpr ⟨by decide, Or.inl (by decide)⟩

/- ## Claim C10 -/

theorem latePurpose_isSome (vf : List Field) (n : Nat) :
    ∃ p, latePurpose vf n = some p := by
  rw [latePurpose]
  split_ifs <;> exact ⟨_, rfl⟩

/-- C10: the purpose detector is total — the `visible_fields[0]` access is
guarded by the count-equals-one check, so it never raises — and every form
none of whose fields is visible (for example one holding only hidden tokens)
is classified `unknown`. -/
theorem c10_invisible_form_unknown (fo : Form) :
    (∃ p, detectFormPurpose fo = some p) ∧
    ((∀ f ∈ fo.fields, f.visible = false) → detectFormPurpose fo = some "unknown") := by
  constructor
  · rw [detectFormPurpose]
    split_ifs with h1 h2 h3
    · exact ⟨_, rfl⟩
    · exact ⟨_, rfl⟩
    · cases hg : fo.getVisibleFields.get? 0 with
      | none =>
        exfalso
        have hnone := List.get?_eq_none.mp hg
        have hlen : fo.getVisibleFields.length = 1 := by simpa using h3
        omega
      | some f0 =>
        by_cases h4 : (f0.input_type == "text" || f0.input_type == "search") = true
        · exact ⟨"search", by dsimp only; rw [if_pos h4]⟩
        · dsimp only
          rw [if_neg h4]
          exact latePurpose_isSome _ _
    · exact latePurpose_isSome _ _
  · intro hinv
    have hvf : fo.getVisibleFields = [] := by
      rw [Form.getVisibleFields, List.filter_eq_nil_iff]
      intro a ha
      simp [hinv a ha]
    rw [detectFormPurpose, hvf]
    simp [latePurpose]

def c10Form : Form :=
  { form_id := "t", fields :=
      [{ tag_name := "input", input_type := "hidden", name := some "csrf_token",
         visible := false }] }

/-- Witness for C10: a form holding only an invisible hidden token classifies
`unknown`. -/
theorem c10_invisible_form_unknown_witness :
    detectFormPurpose c10Form = some "unknown" :=
  (c10_invisible_form_unknown c10Form).2 (by decide)

/- ## Claim C7 -/

/-- C7: submission detection never fails a run — it is total, processes every
form, and per form either records the queried descriptor, or appends the
`No explicit submit button found` note when the query finds nothing, or
appends the `Submit detection failed` note when the query raises; a raised
container-map query degrades to an empty map. -/
theorem c7_submit_detection_never_fails
    (query : String → Except Unit (Option SubmitInfo)) (forms : List Form) :
    (identifySubmitMechanisms query forms).length = forms.length ∧
    getFormGroups (Except.error ()) = [] ∧
    ∀ fo ∈ forms,
      submitStep query fo ∈ identifySubmitMechanisms query forms ∧
      (∀ info, query fo.container_selector = Except.ok (some info) →
        submitStep query fo = { fo with submit_element := some info }) ∧
      (query fo.container_selector = Except.ok none →
        submitStep query fo =
          { fo with notes := fo.notes ++ ["No explicit submit button found"] }) ∧
      (∀ e, query fo.container_selector = Except.error e →
        submitStep query fo =
          { fo with notes := fo.notes ++ ["Submit detection failed"] }) := by
  refine ⟨List.length_map _ _, rfl, ?_⟩
  intro fo hfo
  refine ⟨List.mem_map.mpr ⟨fo, hfo, rfl⟩, ?_, ?_, ?_⟩
  · intro info hq
    rw [submitStep, hq]
  · intro hq
    rw [submitStep, hq]
  · intro e hq
    rw [submitStep, hq]

def c7Sub : SubmitInfo := ⟨"button", "submit", "Go", "go", "btn"⟩

def c7Query : String → Except Unit (Option SubmitInfo) := fun s =>
  if s == "form#ok" then Except.ok (some c7Sub)
  else if s == "form#none" then Except.ok none
  else Except.error ()

def c7FormOk : Form := { form_id := "k", container_selector := "form#ok" }

def c7FormNone : Form := { form_id := "n", container_selector := "form#none" }

def c7FormErr : Form := { form_id := "e", container_selector := "div#x" }

/-- Witness for C7: on a failing submit query the form is kept and annotated
with the failure note. -/
theorem c7_submit_detection_never_fails_witness :
    submitStep c7Query c7FormErr =
      { c7FormErr with notes := c7FormErr.notes ++ ["Submit detection failed"] } :=
  ((c7_submit_detection_never_fails c7Query [c7FormOk, c7FormNone, c7FormErr]).2.2
    c7FormErr (by decide)).2.2.2 () (by rfl)

/- ## Claim C8 -/

/-- C8: normalization is partial-failure tolerant — raising elements are
dropped while the rest continue, the output is the in-order list of
successfully normalized fields (`List.filterMap` of the per-element outcome),
and no per-element failure is surfaced to the caller (the function is total
with no error in its result type). -/
theorem c8_normalization_drops_failures :
    (∀ l : List (Except Unit RawElement),
      normalizeElements l = l.filterMap normStep) ∧
    (∀ xs ys : List (Except Unit RawElement),
      normalizeElements (xs ++ Except.error () :: ys) = normalizeElements (xs ++ ys)) := by
  have h1 : ∀ l, normalizeElements l = l.filterMap normStep := by
    intro l
    induction l with
    | nil => rfl
    | cons e rest ih =>
      cases e with
      | error u => simp [normalizeElements, normStep, List.filterMap_cons, ih]
      | ok r =>
        cases hri : r.info with
        | none => simp [normalizeElements, normStep, hri, List.filterMap_cons, ih]
        | some i => simp [normalizeElements, normStep, hri, List.filterMap_cons, ih]
  refine ⟨h1, ?_⟩
  intro xs ys
  rw [h1, h1, List.filterMap_append, List.filterMap_append, List.filterMap_cons]
  simp [normStep]

end WFA
